import Mathlib

/-!
Shallow embedding of `src/dotbot/sailbot_simulator.py` (PyDotBot SailBot simulator).

Python floats are read as exact rationals (ℚ); Python ints as ℤ/ℕ with Python's
`%` on a positive modulus matching `Int.emod`.  The frame/payload codec
(`dotbot.hdlc`, `dotbot.protocol`) is an external collaborator that is not part
of the source under verification; its decode/encode functions are taken as
parameters (`dec`, `enc`), and decode failure (a raised exception in Python) is
an `Except.error`.
-/

/-- Rational reading of the Python float constant `math.pi` used by both
coordinate transforms.  The algebraic properties proved below hold for any
nonzero value of this constant. -/
def math_pi : ℚ := 3.141592653589793

/-- Module-level constant `delta_t = 0.5` (seconds), the scheduling interval. -/
def delta_t : ℚ := 0.5

/-- State of one simulated vehicle: the instance attributes set in
`SailBotSim.__init__`. -/
structure SailBotSim where
  address : String
  earth_radius_km : ℚ
  origin_coord_latitude : ℚ
  origin_coord_longitude : ℚ
  cos_phi_0 : ℚ
  true_wind_angle : ℤ
  latitude : ℚ
  longitude : ℚ
  wind_angle : ℤ
  direction : ℤ
  x : ℚ
  y : ℚ
  speed : ℚ
  ang_speed : ℚ
  rudder_slider : ℤ
  sail_slider : ℤ
  controller : String
  deriving Repr, DecidableEq

/-- `convert_cartesian_to_geographical(self, x, y)`. -/
def SailBotSim.convert_cartesian_to_geographical (s : SailBotSim) (x y : ℚ) : ℚ × ℚ :=
  (y * 0.180 / math_pi / s.earth_radius_km + s.origin_coord_latitude,
   x * 0.180 / math_pi / s.cos_phi_0 / s.earth_radius_km + s.origin_coord_longitude)

/-- `convert_geographical_to_cartesian(self, latitude, longitude)`. -/
def SailBotSim.convert_geographical_to_cartesian (s : SailBotSim) (latitude longitude : ℚ) : ℚ × ℚ :=
  ((longitude - s.origin_coord_longitude) * s.earth_radius_km * s.cos_phi_0 * math_pi / 0.180,
   (latitude - s.origin_coord_latitude) * s.earth_radius_km * math_pi / 0.180)

/-- `SailBotSim.__init__(self, address)`: the constants and initial state, with
`(x, y)` derived from the initial `(latitude, longitude)` exactly as in the
constructor. -/
def SailBotSim.init (address : String) : SailBotSim :=
  let s0 : SailBotSim :=
    { address := address
      earth_radius_km := 6371
      origin_coord_latitude := 48.825908
      origin_coord_longitude := 2.406433
      cos_phi_0 := 0.658139837
      true_wind_angle := 30
      latitude := 48.832313
      longitude := 2.412689
      wind_angle := 0
      direction := 0
      x := 0
      y := 0
      speed := 0
      ang_speed := 0
      rudder_slider := 0
      sail_slider := 0
      controller := "MANUAL" }
  let xy := s0.convert_geographical_to_cartesian s0.latitude s0.longitude
  { s0 with x := xy.1, y := xy.2 }

/-- `state_space_model(self)`: one tick of the kinematic placeholder model. -/
def SailBotSim.state_space_model (s : SailBotSim) : SailBotSim :=
  let x := s.x + (s.rudder_slider : ℚ)
  let y := s.y + (s.sail_slider : ℚ)
  let geo := s.convert_cartesian_to_geographical x y
  let direction := (s.direction + 10) % 360
  let wind_angle := (-direction + s.true_wind_angle) % 360
  { s with x := x, y := y, latitude := geo.1, longitude := geo.2,
           direction := direction, wind_angle := wind_angle }

/-- The state part of `update(self)`: the tick runs only in `"MANUAL"` mode. -/
def SailBotSim.update_state (s : SailBotSim) : SailBotSim :=
  if s.controller = "MANUAL" then s.state_space_model else s

/-- Payload type tags used by the simulator (`dotbot.protocol.PayloadType`).
Modelled from the spec: the protocol module is an external collaborator; only
the tags the simulator touches are represented. -/
inductive PayloadType where
  | CMD_MOVE_RAW
  | SAILBOT_DATA
  | ADVERTISEMENT
  deriving Repr, DecidableEq

/-- Payload values, coupled to their payload type as `ProtocolPayload.from_bytes`
guarantees.  Modelled from the spec: MoveCommand carries `leftX`/`rightY` as
unsigned bytes; Telemetry carries heading, scaled position and wind angle as
integers. -/
inductive PayloadValues where
  | cmdMoveRaw (left_x right_y : ℕ)
  | sailbotData (direction latitude longitude wind_angle : ℤ)
  | advertisement
  deriving Repr, DecidableEq

/-- The payload type determined by the values, mirroring the coupling that the
external decoder maintains between `payload_type` and `values`. -/
def PayloadValues.payloadType : PayloadValues → PayloadType
  | .cmdMoveRaw _ _ => .CMD_MOVE_RAW
  | .sailbotData _ _ _ _ => .SAILBOT_DATA
  | .advertisement => .ADVERTISEMENT

/-- `dotbot.protocol.ProtocolHeader`.  Modelled from the spec:
Header{destination, source, swarmId, applicationType, protocolVersion}. -/
structure ProtocolHeader where
  destination : ℕ
  source : ℕ
  swarm_id : ℕ
  application : ℕ
  version : ℕ
  deriving Repr, DecidableEq

/-- `dotbot.protocol.ProtocolPayload`: a decoded frame. -/
structure ProtocolPayload where
  header : ProtocolHeader
  values : PayloadValues
  deriving Repr, DecidableEq

def ProtocolPayload.payload_type (p : ProtocolPayload) : PayloadType :=
  p.values.payloadType

/-- The inbound half of the external codec, `ProtocolPayload.from_bytes ∘
hdlc_decode`: taken as a parameter everywhere.  Modelled from the spec: it
"fails with a framing/parse error on malformed byte-stuffing, checksum
mismatch, or truncated input"; a raised exception is `Except.error ()`. -/
abbrev FrameDecoder : Type := List ℕ → Except Unit ProtocolPayload

/-- The outbound half of the external codec, `hdlc_encode ∘
ProtocolPayload.to_bytes`: taken as a parameter everywhere. -/
abbrev FrameEncoder : Type := ProtocolPayload → List ℕ

/-- Python's `hex(n)[2:]`: lowercase hexadecimal digits of `n`, no prefix and
no padding. -/
def natToHexStr (n : ℕ) : String :=
  String.mk (Nat.toDigits 16 n)

/-- Python's `int(q)` on a float: truncation toward zero. -/
def truncQ (q : ℚ) : ℤ :=
  if 0 ≤ q then ⌊q⌋ else ⌈q⌉

/-- Value of one lowercase hexadecimal digit character. -/
def hexDigitVal (c : Char) : ℕ :=
  if c.isDigit then c.toNat - 48 else c.toNat - 87

/-- Python's `int(hexstr, 16)` on the fixed-width lowercase hex address
strings used by the simulator. -/
def hexToNat (a : String) : ℕ :=
  a.data.foldl (fun acc c => 16 * acc + hexDigitVal c) 0

/-- `GATEWAY_ADDRESS_DEFAULT` (from `dotbot.__init__`, external).  Modelled from
the spec: a fixed default gateway address; no claim depends on its value. -/
def GATEWAY_ADDRESS_DEFAULT : ℕ := 0

/-- `SWARM_ID_DEFAULT` (external).  Modelled from the spec: a fixed default. -/
def SWARM_ID_DEFAULT : ℕ := 0

/-- `PROTOCOL_VERSION` (external).  Modelled from the spec: a fixed constant. -/
def PROTOCOL_VERSION : ℕ := 0

/-- `ApplicationType.SailBot` (external). -/
def APPLICATION_SAILBOT : ℕ := 1

/-- The `header` property of `SailBotSim`. -/
def SailBotSim.header (s : SailBotSim) : ProtocolHeader :=
  { destination := GATEWAY_ADDRESS_DEFAULT
    source := hexToNat s.address
    swarm_id := SWARM_ID_DEFAULT
    application := APPLICATION_SAILBOT
    version := PROTOCOL_VERSION }

/-- `encode_serial_output(self)`: build the telemetry payload (position scaled
by 1e6 and truncated to integers) and hand it to the external encoder. -/
def SailBotSim.encode_serial_output (enc : FrameEncoder) (s : SailBotSim) : List ℕ :=
  enc { header := s.header,
        values := .sailbotData s.direction (truncQ (s.latitude * 1000000))
          (truncQ (s.longitude * 1000000)) s.wind_angle }

/-- `update(self)`: tick (in manual mode only), then return the encoded
telemetry of the resulting state. -/
def SailBotSim.update (enc : FrameEncoder) (s : SailBotSim) : SailBotSim × List ℕ :=
  (s.update_state, s.update_state.encode_serial_output enc)

/-- `decode_serial_input(self, frame)`: decode (may raise), filter on the
destination address, and apply a raw move command.  The match on
`PayloadValues` plays the role of the source's `payload_type ==
PayloadType.CMD_MOVE_RAW` test followed by the `values.left_x` /
`values.right_y` accesses. -/
def SailBotSim.decode_serial_input (dec : FrameDecoder) (s : SailBotSim)
    (frame : List ℕ) : Except Unit SailBotSim :=
  match dec frame with
  | .error e => .error e
  | .ok payload =>
    if s.address = natToHexStr payload.header.destination then
      match payload.values with
      | .cmdMoveRaw left_x right_y =>
        .ok { s with controller := "MANUAL",
                     rudder_slider :=
                       if 127 < left_x then (left_x : ℤ) - 256 else (left_x : ℤ),
                     sail_slider :=
                       if 127 < right_y then (right_y : ℤ) - 256 else (right_y : ℤ) }
      | _ => .ok s
    else .ok s

/-- `SailBotSimSerialInterface.write(self, bytes_)`: run the decode on every
vehicle in collection order.  There is no exception handling in the source: a
decode failure aborts the iteration in place, leaving the failing vehicle and
every later vehicle untouched, and the exception (`some ()`) escapes to the
caller. -/
def SailBotSimSerialInterface.write (dec : FrameDecoder) (bots : List SailBotSim)
    (frame : List ℕ) : List SailBotSim × Option Unit :=
  match bots with
  | [] => ([], none)
  | b :: bs =>
    match b.decode_serial_input dec frame with
    | .error e => (b :: bs, some e)
    | .ok b' =>
      let rest := SailBotSimSerialInterface.write dec bs frame
      (b' :: rest.1, rest.2)

/-- Loop state of `SailBotSimSerialInterface.run`: the owned vehicles and the
next due timestamp. -/
structure DriverState where
  sailbots : List SailBotSim
  next_time : ℚ
  deriving Repr

/-- One observation of the clock in the `while True` body of `run`: when the
current time is at or past the due time, tick and encode every vehicle in
order, emitting the bytes, and set `next_time = current_time + delta_t`. -/
def SailBotSimSerialInterface.run_tick_pass (enc : FrameEncoder) :
    List SailBotSim → List SailBotSim × List ℕ
  | [] => ([], [])
  | b :: bs =>
    let r := b.update enc
    let rest := SailBotSimSerialInterface.run_tick_pass enc bs
    (r.1 :: rest.1, r.2 ++ rest.2)

def SailBotSimSerialInterface.run_step (enc : FrameEncoder) (st : DriverState)
    (current_time : ℚ) : DriverState × List ℕ :=
  if st.next_time ≤ current_time then
    let r := SailBotSimSerialInterface.run_tick_pass enc st.sailbots
    ({ sailbots := r.1, next_time := current_time + delta_t }, r.2)
  else (st, [])

/-- The guard of the scheduling loop in `run`: the source line is
`while True:` — the guard consults nothing and is constantly true; the loop
body contains no `break` and the class defines no stop method. -/
def SailBotSimSerialInterface.loop_guard (_ : DriverState) : Bool := true

/-- The public operations of `SailBotSimSerialInterface` reachable from outside
the loop: `write` (inbound bytes) and one pass of the scheduling loop.  The
class defines no stop/cancel operation. -/
inductive DriverOp where
  | write (dec : FrameDecoder) (frame : List ℕ)
  | tickPass (enc : FrameEncoder) (current_time : ℚ)

/-- Effect of a public operation on the driver state (an escaped exception from
`write` leaves the state as the aborted in-place iteration left it). -/
def DriverOp.apply (op : DriverOp) (st : DriverState) : DriverState :=
  match op with
  | .write dec frame =>
    { st with sailbots := (SailBotSimSerialInterface.write dec st.sailbots frame).1 }
  | .tickPass enc t => (SailBotSimSerialInterface.run_step enc st t).1

/-- A trivial frame encoder, used to instantiate the external-encoder
parameter on concrete inputs. -/
def encNull : FrameEncoder := fun _ => []

/-- A decoder that fails on every buffer: the behaviour of the external codec
on a malformed (truncated or corrupted) frame, per its contract. -/
def decFail : FrameDecoder := fun _ => .error ()

/-- A decoder that yields a well-formed raw move command with the given byte
fields and destination, used to instantiate concrete decode scenarios. -/
def decMove (lx ry dest : ℕ) : FrameDecoder :=
  fun _ => .ok { header := { destination := dest, source := 0, swarm_id := 0,
                             application := 0, version := 0 },
                 values := .cmdMoveRaw lx ry }

/-- A vehicle whose controller is not `"MANUAL"`. -/
def botAuto : SailBotSim := { (SailBotSim.init "a") with controller := "AUTONOMOUS" }

/-- States reachable from a freshly constructed vehicle by any sequence of
tick (`update`) and command-decode operations, with the external codec
arbitrary at every step. -/
inductive Reachable : SailBotSim → Prop where
  | init (addr : String) : Reachable (SailBotSim.init addr)
  | tick (enc : FrameEncoder) {s : SailBotSim} :
      Reachable s → Reachable (s.update enc).1
  | decode (dec : FrameDecoder) (frame : List ℕ) {s s' : SailBotSim} :
      Reachable s → s.decode_serial_input dec frame = .ok s' → Reachable s'

/-- A successful command decode never touches the angle fields. -/
theorem decode_preserves_angles {dec : FrameDecoder} {s s' : SailBotSim}
    {frame : List ℕ} (h : s.decode_serial_input dec frame = .ok s') :
    s'.direction = s.direction ∧ s'.wind_angle = s.wind_angle := by
  unfold SailBotSim.decode_serial_input at h
  split at h
  · cases h
  · split at h
    · split at h <;> (injection h with h; subst h; exact ⟨rfl, rfl⟩)
    · injection h with h; subst h; exact ⟨rfl, rfl⟩

/-- One manual-mode tick with zero control inputs, fieldwise. -/
theorem manual_zero_tick_fields (s : SailBotSim) (hm : s.controller = "MANUAL")
    (hr : s.rudder_slider = 0) (hs : s.sail_slider = 0) :
    s.update_state.x = s.x ∧ s.update_state.y = s.y ∧
    s.update_state.direction = (s.direction + 10) % 360 ∧
    s.update_state.controller = "MANUAL" ∧
    s.update_state.rudder_slider = 0 ∧ s.update_state.sail_slider = 0 := by
  simp [SailBotSim.update_state, hm, SailBotSim.state_space_model, hr, hs]

/-- C1: in Manual mode one tick advances `x` by `rudderInput` and `y` by
`sailInput`, re-derives `(latitude, longitude)` from the new `(x, y)` by the
cartesian-to-geographical transform, advances `heading` to
`(heading + 10) mod 360`, recomputes `windAngle` as
`(trueWindAngle - heading) mod 360` with the new heading, and changes no other
field. -/
theorem c1_manual_tick (enc : FrameEncoder) (s : SailBotSim)
    (h : s.controller = "MANUAL") :
    (s.update enc).1 =
      { s with
        x := s.x + (s.rudder_slider : ℚ)
        y := s.y + (s.sail_slider : ℚ)
        latitude := (s.convert_cartesian_to_geographical
          (s.x + (s.rudder_slider : ℚ)) (s.y + (s.sail_slider : ℚ))).1
        longitude := (s.convert_cartesian_to_geographical
          (s.x + (s.rudder_slider : ℚ)) (s.y + (s.sail_slider : ℚ))).2
        direction := (s.direction + 10) % 360
        wind_angle := (s.true_wind_angle - (s.direction + 10) % 360) % 360 } := by
  have hw : -((s.direction + 10) % 360) + s.true_wind_angle
      = s.true_wind_angle - (s.direction + 10) % 360 := by ring
  simp only [SailBotSim.update, SailBotSim.update_state, if_pos h,
    SailBotSim.state_space_model, hw]

theorem c1_witness :
    (SailBotSim.init "a").controller = "MANUAL" ∧
    ((SailBotSim.init "a").update encNull).1 =
      { (SailBotSim.init "a") with
        x := (SailBotSim.init "a").x + ((SailBotSim.init "a").rudder_slider : ℚ)
        y := (SailBotSim.init "a").y + ((SailBotSim.init "a").sail_slider : ℚ)
        latitude := ((SailBotSim.init "a").convert_cartesian_to_geographical
          ((SailBotSim.init "a").x + ((SailBotSim.init "a").rudder_slider : ℚ))
          ((SailBotSim.init "a").y + ((SailBotSim.init "a").sail_slider : ℚ))).1
        longitude := ((SailBotSim.init "a").convert_cartesian_to_geographical
          ((SailBotSim.init "a").x + ((SailBotSim.init "a").rudder_slider : ℚ))
          ((SailBotSim.init "a").y + ((SailBotSim.init "a").sail_slider : ℚ))).2
        direction := ((SailBotSim.init "a").direction + 10) % 360
        wind_angle := ((SailBotSim.init "a").true_wind_angle
          - ((SailBotSim.init "a").direction + 10) % 360) % 360 } :=
  ⟨rfl, c1_manual_tick encNull (SailBotSim.init "a") rfl⟩

/-- C2 counterexample: the claim says a decode failure is caught and never
raises past the driver boundary; on a buffer the codec rejects, the failure
escapes `write` (`some ()` is the uncaught exception). -/
theorem c2_counterexample :
    (SailBotSimSerialInterface.write decFail [SailBotSim.init "a"] [0]).2 ≠ none := by
  simp [SailBotSimSerialInterface.write, SailBotSim.decode_serial_input, decFail]

/-- C2 (amended): on a buffer the codec rejects, the decode failure is NOT
caught — it propagates out of `write`, aborting the iteration — while every
vehicle's state is left unchanged, since the failure precedes any mutation
and hits already the first vehicle. -/
theorem c2_uncaught_decode_failure (dec : FrameDecoder) (bots : List SailBotSim)
    (frame : List ℕ) (hfail : dec frame = .error ()) (hne : bots ≠ []) :
    SailBotSimSerialInterface.write dec bots frame = (bots, some ()) := by
  cases bots with
  | nil => exact absurd rfl hne
  | cons b bs =>
    simp [SailBotSimSerialInterface.write, SailBotSim.decode_serial_input, hfail]

theorem c2_witness :
    decFail [0] = .error () ∧ ([SailBotSim.init "a"] : List SailBotSim) ≠ [] ∧
    SailBotSimSerialInterface.write decFail [SailBotSim.init "a"] [0] =
      ([SailBotSim.init "a"], some ()) :=
  ⟨rfl, by simp, c2_uncaught_decode_failure decFail [SailBotSim.init "a"] [0] rfl (by simp)⟩

/-- C3 counterexample: a pass fired past the due time `1/2` at observed time
`1` reschedules to `3/2 = 1 + delta_t`, not to `1 = 1/2 + delta_t` as the
fixed-phase claim states. -/
theorem c3_counterexample :
    (SailBotSimSerialInterface.run_step encNull ⟨[], 1/2⟩ 1).1.next_time ≠ 1/2 + delta_t := by
  norm_num [SailBotSimSerialInterface.run_step, SailBotSimSerialInterface.run_tick_pass,
    delta_t]

/-- C3 (amended): after a pass fires at or past the due time, the next due
time is the currently observed time plus the interval (`now + delta_t`), so
the schedule re-phases on the observed firing time rather than keeping a
fixed phase. -/
theorem c3_reschedule_now_plus_interval (enc : FrameEncoder) (st : DriverState) (t : ℚ)
    (hfire : st.next_time ≤ t) :
    (SailBotSimSerialInterface.run_step enc st t).1.next_time = t + delta_t := by
  simp [SailBotSimSerialInterface.run_step, hfire]

theorem c3_witness :
    (DriverState.mk [] (1/2)).next_time ≤ 1 ∧
    (SailBotSimSerialInterface.run_step encNull ⟨[], 1/2⟩ 1).1.next_time = 1 + delta_t :=
  ⟨by norm_num, c3_reschedule_now_plus_interval encNull ⟨[], 1/2⟩ 1 (by norm_num)⟩

/-- C4: composing the cartesian-to-geographical transform after the
geographical-to-cartesian transform returns the original `(lat, lon)` pair
exactly, over exact rational arithmetic, whenever the earth-radius and
cosine scale constants are nonzero (as the constructor sets them). -/
theorem c4_roundtrip (s : SailBotSim) (lat lon : ℚ)
    (hR : s.earth_radius_km ≠ 0) (hc : s.cos_phi_0 ≠ 0) :
    s.convert_cartesian_to_geographical
        (s.convert_geographical_to_cartesian lat lon).1
        (s.convert_geographical_to_cartesian lat lon).2 = (lat, lon) := by
  have hpi : math_pi ≠ 0 := by norm_num [math_pi]
  simp only [SailBotSim.convert_cartesian_to_geographical,
    SailBotSim.convert_geographical_to_cartesian]
  apply Prod.ext <;> field_simp

theorem c4_witness :
    (SailBotSim.init "a").earth_radius_km ≠ 0 ∧
    (SailBotSim.init "a").cos_phi_0 ≠ 0 ∧
    (SailBotSim.init "a").convert_cartesian_to_geographical
        ((SailBotSim.init "a").convert_geographical_to_cartesian 1 2).1
        ((SailBotSim.init "a").convert_geographical_to_cartesian 1 2).2 = (1, 2) := by
  refine ⟨by norm_num [SailBotSim.init], by norm_num [SailBotSim.init],
    c4_roundtrip _ 1 2 (by norm_num [SailBotSim.init]) (by norm_num [SailBotSim.init])⟩

/-- C5: a well-formed raw move command addressed to this vehicle stores
`leftX` and `rightY` into `rudderInput` and `sailInput` as signed
two's-complement bytes: a value above 127 is stored as `value - 256`, any
other value unchanged (the witness instantiates `leftX = 200 ↦ -56`,
`rightY = 50 ↦ 50`). -/
theorem c5_signed_decode (dec : FrameDecoder) (s : SailBotSim) (frame : List ℕ)
    (hdr : ProtocolHeader) (lx ry : ℕ)
    (hdec : dec frame = .ok { header := hdr, values := .cmdMoveRaw lx ry })
    (haddr : s.address = natToHexStr hdr.destination) :
    s.decode_serial_input dec frame =
      .ok { s with controller := "MANUAL",
                   rudder_slider := if 127 < lx then (lx : ℤ) - 256 else (lx : ℤ),
                   sail_slider := if 127 < ry then (ry : ℤ) - 256 else (ry : ℤ) } := by
  simp [SailBotSim.decode_serial_input, hdec, haddr]

theorem c5_witness :
    (SailBotSim.init "f").address = natToHexStr 15 ∧
    SailBotSim.decode_serial_input (decMove 200 50 15) (SailBotSim.init "f") [0] =
      .ok { (SailBotSim.init "f") with
            controller := "MANUAL", rudder_slider := -56, sail_slider := 50 } := by
  refine ⟨by decide, ?_⟩
  have h := c5_signed_decode (decMove 200 50 15) (SailBotSim.init "f") [0]
    { destination := 15, source := 0, swarm_id := 0, application := 0, version := 0 }
    200 50 rfl (by decide)
  norm_num at h
  exact h

/-- C6: a well-formed frame whose destination does not match the vehicle's
address leaves the vehicle state exactly unchanged — a silent no-op. -/
theorem c6_address_mismatch (dec : FrameDecoder) (s : SailBotSim) (frame : List ℕ)
    (p : ProtocolPayload)
    (hdec : dec frame = .ok p)
    (haddr : s.address ≠ natToHexStr p.header.destination) :
    s.decode_serial_input dec frame = .ok s := by
  simp [SailBotSim.decode_serial_input, hdec, haddr]

theorem c6_witness :
    (SailBotSim.init "a").address ≠ natToHexStr 15 ∧
    SailBotSim.decode_serial_input (decMove 200 50 15) (SailBotSim.init "a") [0] =
      .ok (SailBotSim.init "a") := by
  refine ⟨by decide, c6_address_mismatch (decMove 200 50 15) _ [0] _ rfl (by decide)⟩

/-- C7: in every state reachable from a freshly constructed vehicle by any
sequence of tick and command-decode operations, `heading` and `windAngle`
both lie in `[0, 360)`. -/
theorem c7_angle_invariant (s : SailBotSim) (h : Reachable s) :
    0 ≤ s.direction ∧ s.direction < 360 ∧ 0 ≤ s.wind_angle ∧ s.wind_angle < 360 := by
  induction h with
  | init addr =>
    refine ⟨?_, ?_, ?_, ?_⟩ <;> simp [SailBotSim.init]
  | tick enc h ih =>
    simp only [SailBotSim.update, SailBotSim.update_state]
    split
    · simp only [SailBotSim.state_space_model]
      exact ⟨Int.emod_nonneg _ (by norm_num), Int.emod_lt_of_pos _ (by norm_num),
             Int.emod_nonneg _ (by norm_num), Int.emod_lt_of_pos _ (by norm_num)⟩
    · exact ih
  | decode dec frame h hok ih =>
    obtain ⟨h1, h2⟩ := decode_preserves_angles hok
    rw [h1, h2]
    exact ih

theorem c7_witness :
    0 ≤ (SailBotSim.init "a").direction ∧ (SailBotSim.init "a").direction < 360 ∧
    0 ≤ (SailBotSim.init "a").wind_angle ∧ (SailBotSim.init "a").wind_angle < 360 :=
  c7_angle_invariant (SailBotSim.init "a") (Reachable.init "a")

/-- C8: from any Manual-mode state whose heading is a valid angle and whose
control inputs are zero, exactly 36 ticks return `heading` to its starting
value and leave `(x, y)` unchanged. -/
theorem c8_36_tick_period (s : SailBotSim) (hm : s.controller = "MANUAL")
    (hr : s.rudder_slider = 0) (hs : s.sail_slider = 0)
    (h0 : 0 ≤ s.direction) (h1 : s.direction < 360) :
    (SailBotSim.update_state^[36] s).direction = s.direction ∧
    (SailBotSim.update_state^[36] s).x = s.x ∧
    (SailBotSim.update_state^[36] s).y = s.y := by
  have key : ∀ n : ℕ,
      (SailBotSim.update_state^[n] s).x = s.x ∧
      (SailBotSim.update_state^[n] s).y = s.y ∧
      (SailBotSim.update_state^[n] s).direction = (s.direction + 10 * n) % 360 ∧
      (SailBotSim.update_state^[n] s).controller = "MANUAL" ∧
      (SailBotSim.update_state^[n] s).rudder_slider = 0 ∧
      (SailBotSim.update_state^[n] s).sail_slider = 0 := by
    intro n
    induction n with
    | zero =>
      refine ⟨rfl, rfl, ?_, hm, hr, hs⟩
      simp [Int.emod_eq_of_lt h0 h1]
    | succ n ih =>
      obtain ⟨ihx, ihy, ihd, ihm, ihr, ihs⟩ := ih
      rw [Function.iterate_succ_apply']
      obtain ⟨tx, ty, td, tm, tr, ts⟩ :=
        manual_zero_tick_fields _ ihm ihr ihs
      refine ⟨by rw [tx, ihx], by rw [ty, ihy], ?_, tm, tr, ts⟩
      rw [td, ihd]
      push_cast
      omega
  obtain ⟨kx, ky, kd, -, -, -⟩ := key 36
  refine ⟨?_, kx, ky⟩
  rw [kd]
  omega

theorem c8_witness :
    (SailBotSim.init "a").controller = "MANUAL" ∧
    (SailBotSim.init "a").rudder_slider = 0 ∧
    (SailBotSim.init "a").sail_slider = 0 ∧
    0 ≤ (SailBotSim.init "a").direction ∧ (SailBotSim.init "a").direction < 360 ∧
    ((SailBotSim.update_state^[36] (SailBotSim.init "a")).direction
        = (SailBotSim.init "a").direction ∧
      (SailBotSim.update_state^[36] (SailBotSim.init "a")).x = (SailBotSim.init "a").x ∧
      (SailBotSim.update_state^[36] (SailBotSim.init "a")).y = (SailBotSim.init "a").y) :=
  ⟨rfl, rfl, rfl, by norm_num [SailBotSim.init], by norm_num [SailBotSim.init],
    c8_36_tick_period (SailBotSim.init "a") rfl rfl rfl
      (by norm_num [SailBotSim.init]) (by norm_num [SailBotSim.init])⟩

/-- C9 counterexample: there is no driver state in which the scheduling loop's
guard is false — the loop is `while True` and the class has no stop
operation, so no invocation can make the loop halt. -/
theorem c9_counterexample :
    ¬ ∃ st : DriverState, SailBotSimSerialInterface.loop_guard st = false := by
  rintro ⟨st, h⟩
  simp [SailBotSimSerialInterface.loop_guard] at h

/-- C9 (amended): the driver exposes no stop operation; after any sequence of
its public operations (inbound writes and scheduling passes) the loop guard
is still true, so the loop never halts on its own and ends only with the
process (the thread is a daemon). -/
theorem c9_no_stop (ops : List DriverOp) (st : DriverState) :
    SailBotSimSerialInterface.loop_guard
      (ops.foldl (fun s op => op.apply s) st) = true := rfl

/-- C10: when the controller mode is not `"MANUAL"`, `update` leaves every
state field unchanged yet still returns the encoded telemetry of that
unchanged state, so a telemetry frame is emitted on every scheduled pass
regardless of mode. -/
theorem c10_nonmanual_telemetry (enc : FrameEncoder) (s : SailBotSim)
    (h : s.controller ≠ "MANUAL") :
    s.update enc = (s, s.encode_serial_output enc) := by
  simp [SailBotSim.update, SailBotSim.update_state, h]

theorem c10_witness :
    botAuto.controller ≠ "MANUAL" ∧
    botAuto.update encNull = (botAuto, botAuto.encode_serial_output encNull) :=
  ⟨by decide, c10_nonmanual_telemetry encNull botAuto (by decide)⟩
